import Mathlib

/-
Verification of the dynamic SQLite database administration panel
(dynamic_db_handler.py).  The Python source is shallowly embedded below:
filesystem state becomes explicit association lists from paths to file
contents, SQLite tables become lists of rows, and every handler operation
becomes a pure Lean function returning the new state together with the
success flag and message the route would flash.
-/

namespace DynDB

/- ## POSIX path model (os.path on the deployment platform) -/

/-- os.path.isabs on POSIX: a path is absolute iff it starts with a slash. -/
def isAbs (p : String) : Bool :=
  match p.data with
  | '/' :: _ => true
  | _ => false

/-- One step of scanning for os.path.basename: a slash resets the
accumulated final component. -/
def basenameStep (acc : List Char) (c : Char) : List Char :=
  if c = '/' then [] else acc ++ [c]

/-- os.path.basename on POSIX: the part of the path after the last slash. -/
def basename (p : String) : String :=
  String.mk (p.data.foldl basenameStep [])

/-- os.path.join on POSIX for the two-argument form used by the handler:
an absolute second argument replaces the first, otherwise the parts are
joined with a slash (the storage directory never ends in a slash). -/
def joinPath (a b : String) : String :=
  if isAbs b then b else a ++ "/" ++ b

/-- The fallback storage directory from DynamicDatabaseHandler.__init__
(RENDER_PERSISTENT_DISK_PATH default). -/
def persistentPath : String := "/opt/render/project/data"

/-- The fixed filename of the centralized user database. -/
def centralizedName : String := "admin_users.db"

/- ## Connection resolution (get_connection, lines 182-205) -/

/-- Path resolution performed by get_connection: an absolute reference is
used verbatim, a relative reference is reduced to its base name and joined
onto the storage directory. -/
def get_connection_path (persistent dbFile : String) : String :=
  if isAbs dbFile then dbFile
  else joinPath persistent (basename dbFile)

/- ## Database deletion (delete_database route, lines 1071-1107) -/

/-- Result of the delete operation: the files existing afterwards, whether
the guard refused, whether a backup copy was written, and whether the
original was removed. -/
structure DeleteOutcome where
  files : List String
  refused : Bool
  backedUp : Bool
  removedOriginal : Bool
deriving DecidableEq, Repr

/-- delete_database: refuses when the reference is the exact string
admin_users.db; otherwise re-roots an absolute reference by base name (a
relative one is joined as given), and if the resolved file exists, copies
it into a timestamped deleted_backups subdirectory and removes it.
`stamp` stands for the wall-clock timestamp used in the backup path. -/
def delete_database (persistent stamp dbFile : String) (files : List String) :
    DeleteOutcome :=
  if dbFile = centralizedName then
    ⟨files, true, false, false⟩
  else
    let fullPath :=
      if isAbs dbFile then joinPath persistent (basename dbFile)
      else joinPath persistent dbFile
    if files.contains fullPath then
      let backupPath :=
        persistent ++ "/deleted_backups/" ++ stamp ++ "/" ++ basename fullPath
      ⟨(files.erase fullPath) ++ [backupPath], false, true, true⟩
    else
      ⟨files, false, false, false⟩

/- ## Identifier quoting (safe_table_name, lines 208-212) -/

/-- The backquote character (written numerically). -/
def backquote : Char := Char.ofNat 96

/-- Python str.strip with a single-character set: removes every copy of
that character from both ends. -/
def stripChar (c : Char) (s : List Char) : List Char :=
  ((s.dropWhile (fun x => x == c)).reverse.dropWhile (fun x => x == c)).reverse

/-- The chained strips of safe_table_name, applied in source order:
double quote, then apostrophe, then backquote, then the two brackets. -/
def cleanChars (s : List Char) : List Char :=
  stripChar ']' (stripChar '[' (stripChar backquote (stripChar '\'' (stripChar '"' s))))

/-- safe_table_name: strip pre-existing quoting characters from both ends,
then wrap once in double quotes. -/
def safe_table_name (s : String) : String :=
  String.mk ('"' :: (cleanChars s.data ++ ['"']))

/-- The five quoting characters stripped by safe_table_name. -/
def quoteChars : List Char := ['"', '\'', backquote, '[', ']']

/-- cleanChars lifted to whole strings; this is how a quoted identifier is
resolved back to the stored table or column name. -/
def cleanStr (s : String) : String := String.mk (cleanChars s.data)

/- ## Schema catalog (db_categories, lines 18-51) -/

/-- required_tables per category from db_categories; none for an unknown
category (indexing db_categories with it raises KeyError). -/
def required_tables : String → Option (List String)
  | "qbank" => some ["qbank"]
  | "users" => some ["users"]
  | "mcq" => some ["mcq_questions"]
  | "admin" => some ["admin_actions"]
  | "test" => some ["test_info", "test_questions"]
  | _ => none

/-- Discovery glob pattern per category from db_categories. -/
def db_pattern : String → Option String
  | "qbank" => some "*year*.db"
  | "users" => some "admin_users.db"
  | "mcq" => some "*mcq*.db"
  | "admin" => some "admin*.db"
  | "test" => some "*test*.db"
  | _ => none

/-- Filename derivation of add_new_database (lines 398-408): qbank and mcq
append suffixes, admin prepends a prefix, users is the one fixed name, and
every other category (which includes test) takes the base name as is. -/
def derive_db_filename (category dbName : String) : String :=
  if category = "qbank" then dbName ++ "_year.db"
  else if category = "mcq" then dbName ++ "_mcq.db"
  else if category = "admin" then "admin_" ++ dbName ++ ".db"
  else if category = "users" then centralizedName
  else dbName ++ ".db"

/- ## Glob matching (fnmatch semantics for the patterns above, which use
only the star wildcard) -/

/-- Star-wildcard matching of a pattern against a name, as fnmatch does
for the catalog patterns: a star matches any (possibly empty) run of
characters, every other pattern character matches itself. -/
def globMatch : List Char → List Char → Bool
  | [], cs => cs.isEmpty
  | p :: ps, [] => p == '*' && globMatch ps []
  | p :: ps, c :: cs =>
    if p == '*' then globMatch ps (c :: cs) || globMatch (p :: ps) cs
    else p == c && globMatch ps cs
termination_by ps cs => ps.length + cs.length

/-- Pattern matching on whole strings. -/
def fnmatch (pat s : String) : Bool := globMatch pat.data s.data

/- ## Upload with validation (upload_database, lines 436-485) -/

/-- A stored database file is modelled by the set of table names it
contains (all the upload validation inspects). -/
abbrev TableSet := List String

/-- Filename extension check of upload_database: lower-case the name and
require it to end in the database extension. -/
def endsWithDb (filename : String) : Bool :=
  ((filename.data.map Char.toLower).reverse.take 3) = ['b', 'd', '.']

/-- os.remove on the modelled storage: drop the entry at the given path. -/
def removeFile (fs : List (String × TableSet)) (p : String) :
    List (String × TableSet) :=
  fs.filter (fun e => !(e.1 == p))

/-- Result of an upload: the storage contents afterwards, the success
flag, and the flashed message. -/
structure UploadResult where
  files : List (String × TableSet)
  ok : Bool
  msg : String
deriving DecidableEq, Repr

/-- upload_database: guard the filename, extension, users naming rule and
collisions; then persist the bytes, check every required table of the
category, and on a missing table remove the saved file and report it.
`filename` is the name after secure_filename; `content` is the set of
tables inside the uploaded bytes (reading them is assumed not to fail,
the failure path of interest being the missing-table one). -/
def upload_database (persistent filename category : String) (content : TableSet)
    (files : List (String × TableSet)) : UploadResult :=
  if filename = "" then ⟨files, false, "No file selected"⟩
  else if endsWithDb filename = false then
    ⟨files, false, "File must have .db extension"⟩
  else
    let fullPath := joinPath persistent filename
    if category = "users" ∧ filename ≠ centralizedName then
      ⟨files, false, "User database must be named admin_users.db"⟩
    else if (files.map Prod.fst).contains fullPath = true then
      ⟨files, false, "Database " ++ filename ++ " already exists"⟩
    else
      let saved := files ++ [(fullPath, content)]
      match required_tables category with
      | none => ⟨removeFile saved fullPath, false, "Error uploading database"⟩
      | some req =>
        match req.find? (fun t => !(content.contains t)) with
        | some t =>
          ⟨removeFile saved fullPath, false,
            "Database missing required table: " ++ t⟩
        | none =>
          ⟨saved, true, "Database " ++ filename ++ " uploaded successfully"⟩

/- ## User consolidation core (migrate_users_to_centralized_db loop,
lines 586-597) -/

/-- A row of a users table, with the four columns the migration reads. -/
structure UserRow where
  username : String
  email : String
  password : String
  created_at : String
deriving DecidableEq, Repr

/-- INSERT OR IGNORE into the centralized users table, whose active schema
(get_centralized_user_schema, lines 239-257) puts a UNIQUE constraint on
email: a row whose email is already present is silently dropped. -/
def insertOrIgnoreUser (central : List UserRow) (u : UserRow) : List UserRow :=
  if central.any (fun v => v.email == u.email) then central
  else central ++ [u]

/-- The per-source-file loop: every row is attempted and the running
counter is incremented after each attempt, whether or not the insert was
ignored. -/
def migrateSource (central : List UserRow) (count : Nat) (src : List UserRow) :
    List UserRow × Nat :=
  src.foldl (fun st u => (insertOrIgnoreUser st.1 u, st.2 + 1)) (central, count)

/-- One step over a discovered qbank file: a file without a users table is
skipped, otherwise its rows run through migrateSource. -/
def migrateStep (st : List UserRow × Nat) (osrc : Option (List UserRow)) :
    List UserRow × Nat :=
  match osrc with
  | none => st
  | some src => migrateSource st.1 st.2 src

/-- The whole migration loop over the discovered qbank sources, starting
from the current centralized users and a zero counter. -/
def migrate_users_core (central : List UserRow)
    (sources : List (Option (List UserRow))) : List UserRow × Nat :=
  sources.foldl migrateStep (central, 0)

/- ## Generic table editor (edit_database_record lines 925-990,
add_database_record lines 998-1057) -/

/-- The named column values of one row (the implicit id column is kept
separately as the row key). -/
abbrev Fields := List (String × String)

/-- A table: its declared column names and its rows, each keyed by id. -/
structure Table where
  cols : List String
  rows : List (Nat × Fields)
deriving DecidableEq, Repr

/-- Look a table up by name inside one database file. -/
def lookupTable (db : List (String × Table)) (n : String) : Option Table :=
  (db.find? (fun e => e.1 == n)).map Prod.snd

/-- Replace the (first) table of the given name. -/
def updateTable : List (String × Table) → String → Table → List (String × Table)
  | [], _, _ => []
  | e :: es, n, t => if e.1 = n then (n, t) :: es else e :: updateTable es n t

/-- The rowid SQLite hands to the next inserted row of a table with an
INTEGER PRIMARY KEY id column. -/
def nextId (t : Table) : Nat :=
  (t.rows.map Prod.fst).foldl Nat.max 0 + 1

/-- The columns the audit insert supplies to admin_actions. -/
def auditCols : List String :=
  ["admin_user_id", "action_type", "target_db", "target_table", "action_details"]

/-- The audit row written by the log-and-continue policy. -/
def auditFields (adminUser actType dbFile tableName details : String) : Fields :=
  [("admin_user_id", adminUser), ("action_type", actType),
   ("target_db", dbFile), ("target_table", tableName),
   ("action_details", details)]

/-- Append one audit row to the admin_actions table when that table exists
and has the supplied columns; any failure of the audit insert (no such
table, or a mismatched schema) is swallowed and the database is returned
unchanged. -/
def logAdminAction (db : List (String × Table))
    (adminUser actType dbFile tableName details : String) :
    List (String × Table) :=
  match lookupTable db "admin_actions" with
  | none => db
  | some t =>
    if auditCols.all (fun c => t.cols.contains c) then
      updateTable db "admin_actions"
        ⟨t.cols, t.rows ++ [(nextId t, auditFields adminUser actType dbFile tableName details)]⟩
    else db

/-- Form fields surviving the key filter of the update handler (the
csrf_token and submit controls are dropped, values are kept as sent). -/
def filterForm (form : Fields) : Fields :=
  form.filter (fun kv => !(kv.1 == "csrf_token") && !(kv.1 == "submit"))

/-- The SET list the update handler builds: every surviving form field,
its key routed through identifier quoting (hence resolved back to the
stripped column name). -/
def updatesOf (form : Fields) : Fields :=
  (filterForm form).map (fun kv => (cleanStr kv.1, kv.2))

/-- Apply one SET assignment to a row. -/
def setField (f : Fields) (k v : String) : Fields :=
  if f.any (fun p => p.1 == k) then
    f.map (fun p => if p.1 = k then (k, v) else p)
  else f ++ [(k, v)]

/-- Apply a whole SET list in order. -/
def applyUpdates (f : Fields) (updates : Fields) : Fields :=
  updates.foldl (fun acc kv => setField acc kv.1 kv.2) f

/-- Outcome of a record edit or insert: the database afterwards, whether
the route flashed success, and the error message otherwise. -/
structure EditOutcome where
  db : List (String × Table)
  success : Bool
  err : Option String
deriving DecidableEq, Repr

/-- edit_database_record, POST path: build the SET list from the form; if
it is nonempty run the UPDATE against the row matching the id (a statement
naming a column the table lacks fails at prepare time and the caught
exception flashes an error with nothing committed), append the audit row
under the log-and-continue policy, and flash success; if the SET list is
empty the code falls through to the GET render, which errors only when
the requested row does not exist. -/
def edit_database_record (db : List (String × Table))
    (dbFile tableName adminUser : String) (recordId : Nat) (form : Fields) :
    EditOutcome :=
  let key := cleanStr tableName
  match lookupTable db key with
  | none => ⟨db, false, some "Error editing record"⟩
  | some t =>
    let updates := updatesOf form
    if updates.isEmpty then
      if t.rows.any (fun r => r.1 == recordId) then ⟨db, true, none⟩
      else ⟨db, false, some "Record not found"⟩
    else
      if updates.all (fun kv => t.cols.contains kv.1) then
        let t2 : Table :=
          ⟨t.cols, t.rows.map (fun r =>
            if r.1 = recordId then (r.1, applyUpdates r.2 updates) else r)⟩
        ⟨logAdminAction (updateTable db key t2) adminUser "UPDATE" dbFile tableName
            ("Updated record ID " ++ toString recordId), true, none⟩
      else ⟨db, false, some "Error editing record"⟩

/-- Python str.isspace membership for the characters str.strip removes. -/
def pyIsSpace (c : Char) : Bool :=
  c == ' ' || c == '\t' || c == '\n' || c == '\r' ||
  c == Char.ofNat 11 || c == Char.ofNat 12

/-- A form value is blank when value.strip() is falsy: every character is
whitespace (which covers the empty string). -/
def pyBlank (v : String) : Bool := v.data.all pyIsSpace

/-- The column list the insert handler builds: surviving form fields whose
value is not blank, keys routed through identifier quoting. -/
def insertColumns (form : Fields) : Fields :=
  (form.filter (fun kv =>
    !(kv.1 == "csrf_token") && !(kv.1 == "submit") && !(pyBlank kv.2))).map
    (fun kv => (cleanStr kv.1, kv.2))

/-- add_database_record, POST path: build the INSERT column list from the
non-blank form fields; when it is empty flash the fill-a-field validation
error without touching the table; otherwise insert one new row holding
exactly those columns, append the audit row, and flash success. -/
def add_database_record (db : List (String × Table))
    (dbFile tableName adminUser : String) (form : Fields) : EditOutcome :=
  let key := cleanStr tableName
  match lookupTable db key with
  | none => ⟨db, false, some "Error adding record"⟩
  | some t =>
    let columns := insertColumns form
    if columns.isEmpty then
      ⟨db, false, some "Please fill at least one field"⟩
    else
      if columns.all (fun kv => t.cols.contains kv.1) then
        let t2 : Table := ⟨t.cols, t.rows ++ [(nextId t, columns)]⟩
        ⟨logAdminAction (updateTable db key t2) adminUser "INSERT" dbFile tableName
            ("Added new record ID " ++ toString (nextId t)), true, none⟩
      else ⟨db, false, some "Error adding record"⟩

/- ## Paginated listing (edit_database_table, lines 852-917) -/

/-- A row as the listing sees it: the id column may be NULL, the rest of
the row is opaque. -/
structure QRow where
  id : Option Int
  fields : Fields
deriving DecidableEq, Repr

/-- The ORDER BY key: COALESCE(id, 0). -/
def sortKey (r : QRow) : Int := r.id.getD 0

/-- Insert one row into a list kept in descending key order. -/
def insertRowDesc (r : QRow) : List QRow → List QRow
  | [] => [r]
  | x :: xs => if sortKey x < sortKey r then r :: x :: xs else x :: insertRowDesc r xs

/-- ORDER BY COALESCE(id, 0) DESC as an insertion sort. -/
def orderByIdDesc (rows : List QRow) : List QRow :=
  rows.foldr insertRowDesc []

/-- The fixed page size of the listing route. -/
def per_page : Nat := 25

/-- edit_database_table data query: the rows of the requested 1-based
page (LIMIT per_page OFFSET (page-1)*per_page over the descending order)
together with the COUNT(*) total. -/
def edit_database_table_page (rows : List QRow) (page : Nat) :
    List QRow × Nat :=
  (((orderByIdDesc rows).drop ((page - 1) * per_page)).take per_page,
    rows.length)

/- ## Handler state and full migration (lines 13-51, 532-552, 554-627) -/

/-- A discovered source or centralized file: its table names and the rows
of its users table (empty when it has none; tables tells whether it is
consulted). -/
structure SourceDB where
  tables : List String
  users : List UserRow
deriving DecidableEq, Repr

/-- The storage directory contents: full path to file contents. -/
abbrev FS10 := List (String × SourceDB)

/-- The handler instance: the storage path set by __init__ and the
discovered_databases attribute, absent (none) until some operation
assigns it.  __init__ never assigns it: the auto-discovery assignment
sits after the return statement of the first get_admin_schema definition
(lines 139-154) and is unreachable. -/
structure Handler where
  persistent : String
  discovered : Option (List (String × List String))
deriving DecidableEq, Repr

/-- A freshly constructed DynamicDatabaseHandler. -/
def freshHandler (p : String) : Handler := ⟨p, none⟩

/-- The category patterns discovery iterates over. -/
def categoryPatterns : List (String × String) :=
  [("qbank", "*year*.db"), ("users", "admin_users.db"), ("mcq", "*mcq*.db"),
   ("admin", "admin*.db"), ("test", "*test*.db")]

/-- discover_databases: per category, the stored paths matching the
category pattern joined onto the storage directory. -/
def discover_databases (persistent : String) (fs : FS10) :
    List (String × List String) :=
  categoryPatterns.map (fun cp =>
    (cp.1, (fs.map Prod.fst).filter (fun path =>
      fnmatch (persistent ++ "/" ++ cp.2) path)))

/-- backup_all_databases: iterating self.discovered_databases raises
AttributeError when the attribute was never assigned, which the
surrounding except converts into a failure result; otherwise every
discovered file is copied and counted. -/
def backup_all_databases (h : Handler) : Bool × Nat :=
  match h.discovered with
  | none => (false, 0)
  | some d => (true, (d.map (fun c => c.2.length)).sum)

/-- The schema created for a fresh centralized user database. -/
def emptyCentralDB : SourceDB :=
  ⟨["users", "user_bookmarks", "user_notes", "user_topic_completion",
    "user_analytics"], []⟩

/-- add_new_database for the users category: the derived filename is the
fixed centralized one; refuse if it exists, otherwise create it with the
centralized schema and refresh discovered_databases (line 429). -/
def add_new_database_users (h : Handler) (fs : FS10) :
    Handler × FS10 × Bool :=
  let path := h.persistent ++ "/" ++ centralizedName
  if (fs.map Prod.fst).contains path then (h, fs, false)
  else
    let fs2 := fs ++ [(path, emptyCentralDB)]
    ({ h with discovered := some (discover_databases h.persistent fs2) }, fs2, true)

/-- Result of the full migration routine. -/
structure MigrateResult where
  handler : Handler
  fs : FS10
  ok : Bool
  count : Nat
deriving DecidableEq, Repr

/-- migrate_users_to_centralized_db: create the centralized file when
absent (which as a side effect assigns discovered_databases); then read
self.discovered_databases — an AttributeError here is caught and turned
into a failure result — and run the migration loop over the discovered
qbank files, refreshing discovery at the end.  Bookmark copying touches
only the user_bookmarks table and neither the flag nor the returned
count, and is not modelled. -/
def migrate_users_to_centralized_db (h : Handler) (fs : FS10) : MigrateResult :=
  let central := h.persistent ++ "/" ++ centralizedName
  let step1 : Option (Handler × FS10) :=
    if (fs.map Prod.fst).contains central then some (h, fs)
    else
      let r := add_new_database_users h fs
      if r.2.2 then some (r.1, r.2.1) else none
  match step1 with
  | none => ⟨h, fs, false, 0⟩
  | some (h1, fs1) =>
    match h1.discovered with
    | none => ⟨h1, fs1, false, 0⟩
    | some disc =>
      let qbankFiles := (((disc.find? (fun c => c.1 == "qbank")).map Prod.snd).getD [])
      let sources : List (Option (List UserRow)) :=
        qbankFiles.map (fun f =>
          match (fs1.find? (fun e => e.1 == f)).map Prod.snd with
          | none => none
          | some db => if db.tables.contains "users" then some db.users else none)
      let centralUsers :=
        (((fs1.find? (fun e => e.1 == central)).map Prod.snd).map SourceDB.users).getD []
      let res := migrate_users_core centralUsers sources
      let fs2 := fs1.map (fun e =>
        if e.1 = central then (e.1, ⟨e.2.tables, res.1⟩) else e)
      ⟨{ h1 with discovered := some (discover_databases h1.persistent fs2) },
        fs2, true, res.2⟩

/- ## Theorems -/

/- ### Path helpers -/

theorem slash_not_mem_foldl_basenameStep (cs : List Char) (acc : List Char)
    (h : '/' ∉ acc) : '/' ∉ cs.foldl basenameStep acc := by
  induction cs generalizing acc with
  | nil => exact h
  | cons c t ih =>
    apply ih
    by_cases hc : c = '/'
    · simp [basenameStep, hc]
    · simp only [basenameStep, if_neg hc]
      intro hm
      rcases List.mem_append.mp hm with ha | hb
      · exact h ha
      · exact hc (List.mem_singleton.mp hb).symm

theorem slash_not_mem_basename (p : String) : '/' ∉ (basename p).data :=
  slash_not_mem_foldl_basenameStep p.data [] (by simp)

theorem isAbs_eq_false_of_no_slash (l : List Char) (h : '/' ∉ l) :
    isAbs (String.mk l) = false := by
  cases l with
  | nil => rfl
  | cons c t =>
    have hc : c ≠ '/' := fun e => h (by simp [e])
    unfold isAbs
    split
    · rename_i heq
      injection heq with h1 _
      exact absurd h1 hc
    · rfl

theorem isAbs_basename_eq_false (p : String) : isAbs (basename p) = false :=
  isAbs_eq_false_of_no_slash _ (slash_not_mem_basename p)

/-- Claim C1 (amended): get_connection resolves a relative reference to
the storage directory joined with the reference's base name (which
contains no slash, so the opened path stays inside the storage
directory); an absolute reference, however, is used verbatim, so an
absolute input can make it open a file outside the storage directory. -/
theorem c1_connection_resolution (persistent ref : String) :
    (isAbs ref = true → get_connection_path persistent ref = ref) ∧
    (isAbs ref = false →
      get_connection_path persistent ref = persistent ++ "/" ++ basename ref ∧
      '/' ∉ (basename ref).data) := by
  constructor
  · intro h
    simp [get_connection_path, h]
  · intro h
    refine ⟨?_, slash_not_mem_basename ref⟩
    simp [get_connection_path, h, joinPath, isAbs_basename_eq_false]

/-- Witness for C1 at a concrete relative reference. -/
theorem c1_connection_resolution_witness :
    get_connection_path persistentPath "sub/notes.db" =
      persistentPath ++ "/" ++ basename "sub/notes.db" ∧
    '/' ∉ (basename "sub/notes.db").data :=
  (c1_connection_resolution persistentPath "sub/notes.db").2 (by decide)

/-- Counterexample to C1 as stated: the absolute reference /tmp/evil.db is
not re-rooted to the storage directory joined with its base name — it is
opened verbatim, outside the storage directory. -/
theorem c1_counterexample :
    isAbs "/tmp/evil.db" = true ∧
    get_connection_path persistentPath "/tmp/evil.db" = "/tmp/evil.db" ∧
    get_connection_path persistentPath "/tmp/evil.db" ≠
      joinPath persistentPath (basename "/tmp/evil.db") := by decide

/- ### C2: deletion guard for the centralized user file -/

/-- Claim C2 (amended): the delete operation refuses — leaving the files
untouched, with no backup copy and no removal — exactly when the
caller-supplied reference is the bare string admin_users.db; a reference
in any other form is not covered by the guard, even when it resolves to
the centralized file. -/
theorem c2_delete_guard (persistent stamp dbFile : String) (files : List String) :
    ((delete_database persistent stamp dbFile files).refused = true ↔
      dbFile = centralizedName) ∧
    (dbFile = centralizedName →
      delete_database persistent stamp dbFile files = ⟨files, true, false, false⟩) := by
  constructor
  · by_cases h : dbFile = centralizedName
    · simp [delete_database, h]
    · simp only [delete_database, if_neg h]
      constructor
      · intro hr
        exfalso
        revert hr
        split <;> split <;> simp
      · intro hr
        exact absurd hr h
  · intro h
    simp [delete_database, h]

/-- Witness for C2 at the bare centralized filename. -/
theorem c2_delete_guard_witness :
    delete_database persistentPath "20240101_000000" centralizedName
      [persistentPath ++ "/" ++ centralizedName] =
      ⟨[persistentPath ++ "/" ++ centralizedName], true, false, false⟩ :=
  (c2_delete_guard persistentPath "20240101_000000" centralizedName
    [persistentPath ++ "/" ++ centralizedName]).2 rfl

/-- Counterexample to C2 as stated: the absolute reference
/srv/admin_users.db has the centralized base name, passes the guard,
resolves to the centralized file in storage, and the operation copies and
deletes it. -/
theorem c2_counterexample :
    (delete_database persistentPath "20240101_000000" "/srv/admin_users.db"
      [persistentPath ++ "/admin_users.db"]).refused = false ∧
    (delete_database persistentPath "20240101_000000" "/srv/admin_users.db"
      [persistentPath ++ "/admin_users.db"]).backedUp = true ∧
    (delete_database persistentPath "20240101_000000" "/srv/admin_users.db"
      [persistentPath ++ "/admin_users.db"]).removedOriginal = true ∧
    (delete_database persistentPath "20240101_000000" "/srv/admin_users.db"
      [persistentPath ++ "/admin_users.db"]).files.contains
        (persistentPath ++ "/admin_users.db") = false := by decide

/- ### C3: identifier quoting -/

theorem dropWhile_beq_eq_self {c : Char} {l : List Char} (h : l.head? ≠ some c) :
    l.dropWhile (fun x => x == c) = l := by
  cases l with
  | nil => rfl
  | cons a t =>
    have ha : ¬(a == c) = true := by
      intro e
      exact h (by simp [beq_iff_eq.mp e])
    simp [List.dropWhile_cons, ha]

theorem stripChar_eq_self {c : Char} {l : List Char} (h1 : l.head? ≠ some c)
    (h2 : l.getLast? ≠ some c) : stripChar c l = l := by
  unfold stripChar
  rw [dropWhile_beq_eq_self h1]
  rw [dropWhile_beq_eq_self (by rwa [List.head?_reverse])]
  exact List.reverse_reverse l

theorem stripChar_wrap {c : Char} {l : List Char} (h1 : l.head? ≠ some c)
    (h2 : l.getLast? ≠ some c) : stripChar c (c :: (l ++ [c])) = l := by
  cases l with
  | nil => simp [stripChar]
  | cons a t =>
    have hB : ((a :: t) ++ [c]).head? ≠ some c := by
      simp only [List.cons_append, List.head?_cons]
      intro e
      exact h1 (by simpa using e)
    have hD : (t.reverse ++ [a]).head? ≠ some c := by
      rw [← List.reverse_cons, List.head?_reverse]
      exact h2
    unfold stripChar
    rw [List.dropWhile_cons]
    simp only [beq_self_eq_true, if_true]
    rw [dropWhile_beq_eq_self hB]
    rw [List.reverse_append]
    simp only [List.reverse_cons, List.reverse_nil, List.nil_append,
      List.singleton_append]
    rw [List.dropWhile_cons]
    simp only [beq_self_eq_true, if_true]
    rw [dropWhile_beq_eq_self hD]
    rw [← List.reverse_cons, List.reverse_reverse]

/-- Claim C3 (amended): quoting is idempotent for every string whose
stripped name neither starts nor ends with one of the five quoting
characters; in general re-quoting an already-quoted name can strip
further characters, so idempotency fails. -/
theorem c3_quote_idempotent (s : String)
    (h : ∀ c ∈ quoteChars, (cleanChars s.data).head? ≠ some c ∧
      (cleanChars s.data).getLast? ≠ some c) :
    safe_table_name (safe_table_name s) = safe_table_name s := by
  have h1 := h '"' (by simp [quoteChars])
  have h2 := h '\'' (by simp [quoteChars])
  have h3 := h backquote (by simp [quoteChars])
  have h4 := h '[' (by simp [quoteChars])
  have h5 := h ']' (by simp [quoteChars])
  have key : cleanChars (safe_table_name s).data = cleanChars s.data := by
    show cleanChars ('"' :: (cleanChars s.data ++ ['"'])) = cleanChars s.data
    generalize cleanChars s.data = X at h1 h2 h3 h4 h5 ⊢
    show stripChar ']' (stripChar '[' (stripChar backquote (stripChar '\''
      (stripChar '"' ('"' :: (X ++ ['"'])))))) = X
    rw [stripChar_wrap h1.1 h1.2, stripChar_eq_self h2.1 h2.2,
      stripChar_eq_self h3.1 h3.2, stripChar_eq_self h4.1 h4.2,
      stripChar_eq_self h5.1 h5.2]
  show String.mk ('"' :: (cleanChars (safe_table_name s).data ++ ['"'])) =
    String.mk ('"' :: (cleanChars s.data ++ ['"']))
  rw [key]

/-- Witness for C3 at a plain identifier. -/
theorem c3_quote_idempotent_witness :
    safe_table_name (safe_table_name "users") = safe_table_name "users" :=
  c3_quote_idempotent "users" (by decide)

/-- Counterexample to C3 as stated: on the five-character input
apostrophe, double quote, a, double quote, apostrophe, the first pass
strips only the apostrophes (the strips run in a fixed order), leaving
inner double quotes that the second pass then strips, so quoting twice
differs from quoting once. -/
theorem c3_counterexample :
    safe_table_name (safe_table_name (String.mk ['\'', '"', 'a', '"', '\''])) ≠
      safe_table_name (String.mk ['\'', '"', 'a', '"', '\'']) := by decide

/- ### C4: failed upload leaves no trace -/

theorem not_mem_keys_of_contains_eq_false {l : List String} {a : String}
    (h : l.contains a = false) : a ∉ l := by
  intro hm
  have := List.elem_iff.mpr hm
  rw [List.contains] at h
  rw [this] at h
  exact Bool.true_eq_false.mp h

theorem filter_keep_of_not_mem (files : List (String × TableSet)) (p : String)
    (h : p ∉ files.map Prod.fst) :
    files.filter (fun e => !(e.1 == p)) = files := by
  induction files with
  | nil => rfl
  | cons e es ih =>
    have h1 : e.1 ≠ p := fun he => h (by simp [he])
    have h2 : p ∉ es.map Prod.fst := fun hm => h (by simp [hm])
    rw [List.filter_cons]
    simp only [h1, bne_iff_ne, ne_eq, not_false_eq_true, if_pos, Bool.not_eq_true']
    rw [ih h2]
    simp [h1]

theorem removeFile_append_self (files : List (String × TableSet)) (p : String)
    (c : TableSet) (h : (files.map Prod.fst).contains p = false) :
    removeFile (files ++ [(p, c)]) p = files := by
  unfold removeFile
  rw [List.filter_append]
  have h2 : List.filter (fun e => !(e.1 == p)) [(p, c)] = [] := by simp
  rw [h2, List.append_nil]
  exact filter_keep_of_not_mem files p (not_mem_keys_of_contains_eq_false h)

/-- Claim C4 (confirmed): when an upload passes the filename, extension,
users-naming and collision guards but its declared category requires a
table the uploaded database lacks, the operation reports failure naming
the (first) missing table and the storage contents are exactly what they
were before — in particular the uploaded file does not exist. -/
theorem c4_failed_upload_leaves_no_trace (persistent filename category : String)
    (content : TableSet) (files : List (String × TableSet))
    (req : List String) (t : String)
    (hname : filename ≠ "")
    (hext : endsWithDb filename = true)
    (husers : ¬(category = "users" ∧ filename ≠ centralizedName))
    (hnew : (files.map Prod.fst).contains (joinPath persistent filename) = false)
    (hreq : required_tables category = some req)
    (hmiss : req.find? (fun t0 => !(content.contains t0)) = some t) :
    (upload_database persistent filename category content files).ok = false ∧
    (upload_database persistent filename category content files).msg =
      "Database missing required table: " ++ t ∧
    (upload_database persistent filename category content files).files = files := by
  have hrm := removeFile_append_self files (joinPath persistent filename) content hnew
  unfold upload_database
  rw [if_neg hname]
  rw [hext]
  rw [if_neg (by simp : ¬((true : Bool) = false))]
  rw [if_neg husers]
  rw [hnew]
  rw [if_neg (by simp : ¬((false : Bool) = true))]
  rw [hreq]
  simp only [hmiss]
  simpa using hrm

/-- Witness for C4: uploading a test-category database that contains only
test_info fails naming test_questions and leaves the empty storage
empty. -/
theorem c4_failed_upload_leaves_no_trace_witness :
    (upload_database persistentPath "demo_test.db" "test" ["test_info"] []).ok = false ∧
    (upload_database persistentPath "demo_test.db" "test" ["test_info"] []).msg =
      "Database missing required table: " ++ "test_questions" ∧
    (upload_database persistentPath "demo_test.db" "test" ["test_info"] []).files = [] :=
  c4_failed_upload_leaves_no_trace persistentPath "demo_test.db" "test"
    ["test_info"] [] ["test_info", "test_questions"] "test_questions"
    (by decide) (by decide) (by decide) (by decide) (by decide) (by decide)

/- ### C5: migration count vs rows actually inserted -/

theorem migrateSource_snd (central : List UserRow) (count : Nat)
    (src : List UserRow) :
    (migrateSource central count src).2 = count + src.length := by
  induction src generalizing central count with
  | nil => simp [migrateSource]
  | cons u us ih =>
    have h := ih (insertOrIgnoreUser central u) (count + 1)
    simp only [migrateSource, List.foldl_cons] at h ⊢
    rw [h, List.length_cons]
    omega

theorem migrateSource_fst (central : List UserRow) (count : Nat)
    (src : List UserRow) :
    (migrateSource central count src).1 = src.foldl insertOrIgnoreUser central := by
  induction src generalizing central count with
  | nil => rfl
  | cons u us ih =>
    have h := ih (insertOrIgnoreUser central u) (count + 1)
    simp only [migrateSource, List.foldl_cons] at h ⊢
    exact h

theorem insertOrIgnoreUser_email_nodup {central : List UserRow} {u : UserRow}
    (h : (central.map UserRow.email).Nodup) :
    ((insertOrIgnoreUser central u).map UserRow.email).Nodup := by
  unfold insertOrIgnoreUser
  split
  · exact h
  · rename_i hany
    rw [List.map_append]
    refine List.Nodup.append h (by simp) ?_
    intro a ha hb
    simp only [List.map_cons, List.map_nil, List.mem_singleton] at hb
    subst hb
    rcases List.mem_map.mp ha with ⟨v, hv, hveq⟩
    rw [Bool.not_eq_true, List.any_eq_false] at hany
    have := hany v hv
    simp only [beq_iff_eq] at this
    exact this (hveq.trans rfl)

theorem foldl_insertOrIgnore_nodup (src : List UserRow) (central : List UserRow)
    (h : (central.map UserRow.email).Nodup) :
    ((src.foldl insertOrIgnoreUser central).map UserRow.email).Nodup := by
  induction src generalizing central with
  | nil => exact h
  | cons u us ih =>
    rw [List.foldl_cons]
    exact ih _ (insertOrIgnoreUser_email_nodup h)

theorem foldl_migrateStep_snd (sources : List (Option (List UserRow)))
    (st : List UserRow × Nat) :
    (sources.foldl migrateStep st).2 =
      st.2 + (sources.map (fun o => (o.getD []).length)).sum := by
  induction sources generalizing st with
  | nil => simp
  | cons o os ih =>
    rw [List.foldl_cons, ih, List.map_cons, List.sum_cons]
    cases o with
    | none => simp [migrateStep]
    | some src =>
      simp only [migrateStep, migrateSource_snd, Option.getD_some]
      omega

theorem foldl_migrateStep_fst_nodup (sources : List (Option (List UserRow)))
    (st : List UserRow × Nat) (h : (st.1.map UserRow.email).Nodup) :
    (((sources.foldl migrateStep st).1).map UserRow.email).Nodup := by
  induction sources generalizing st with
  | nil => exact h
  | cons o os ih =>
    rw [List.foldl_cons]
    apply ih
    cases o with
    | none => exact h
    | some src =>
      show (((migrateSource st.1 st.2 src).1).map UserRow.email).Nodup
      rw [migrateSource_fst]
      exact foldl_insertOrIgnore_nodup src st.1 h

/-- Claim C5 (amended): the user-consolidation loop returns the number of
source user rows processed — the counter is incremented for every row read
out of a source users table, including a row whose email already exists
in the centralized table; such a duplicate is silently skipped by the
insert (email uniqueness is preserved) but it is still included in the
returned migrated-row count. -/
theorem c5_migration_count (central : List UserRow)
    (sources : List (Option (List UserRow)))
    (h : (central.map UserRow.email).Nodup) :
    (migrate_users_core central sources).2 =
      (sources.map (fun o => (o.getD []).length)).sum ∧
    (((migrate_users_core central sources).1).map UserRow.email).Nodup := by
  constructor
  · unfold migrate_users_core
    rw [foldl_migrateStep_snd]
    simp
  · exact foldl_migrateStep_fst_nodup sources (central, 0) h

/-- Witness for C5 on a single one-row source. -/
theorem c5_migration_count_witness :
    (migrate_users_core [] [some [⟨"u1", "u1@example.com", "pw", "t"⟩]]).2 =
      (([some [⟨"u1", "u1@example.com", "pw", "t"⟩]] :
        List (Option (List UserRow))).map (fun o => (o.getD []).length)).sum ∧
    (((migrate_users_core [] [some [⟨"u1", "u1@example.com", "pw", "t"⟩]]).1).map
      UserRow.email).Nodup :=
  c5_migration_count [] [some [⟨"u1", "u1@example.com", "pw", "t"⟩]] (by simp)

/-- Counterexample to C5 as stated: a source holding one user whose email
already exists in the centralized table reports a migrated count of 1
even though zero rows were inserted (the centralized users are
unchanged). -/
theorem c5_counterexample :
    (migrate_users_to_centralized_db ⟨"/d", some [("qbank", ["/d/src_year.db"])]⟩
      [("/d/admin_users.db", ⟨["users"], [⟨"alice", "a@x.com", "p1", "t1"⟩]⟩),
       ("/d/src_year.db", ⟨["users", "qbank"], [⟨"bob", "a@x.com", "p2", "t2"⟩]⟩)]).ok
        = true ∧
    (migrate_users_to_centralized_db ⟨"/d", some [("qbank", ["/d/src_year.db"])]⟩
      [("/d/admin_users.db", ⟨["users"], [⟨"alice", "a@x.com", "p1", "t1"⟩]⟩),
       ("/d/src_year.db", ⟨["users", "qbank"], [⟨"bob", "a@x.com", "p2", "t2"⟩]⟩)]).count
        = 1 ∧
    (((migrate_users_to_centralized_db ⟨"/d", some [("qbank", ["/d/src_year.db"])]⟩
      [("/d/admin_users.db", ⟨["users"], [⟨"alice", "a@x.com", "p1", "t1"⟩]⟩),
       ("/d/src_year.db", ⟨["users", "qbank"], [⟨"bob", "a@x.com", "p2", "t2"⟩]⟩)]).fs.find?
        (fun e => e.1 == "/d/admin_users.db")).map (fun e => e.2.users)) =
      some [⟨"alice", "a@x.com", "p1", "t1"⟩] := by decide

/- ### Table lookup and update helpers for the record editor -/

theorem lookupTable_updateTable_self (db : List (String × Table)) (n : String)
    (t t2 : Table) (h : lookupTable db n = some t) :
    lookupTable (updateTable db n t2) n = some t2 := by
  induction db with
  | nil => simp [lookupTable] at h
  | cons e es ih =>
    by_cases he : e.1 = n
    · simp [updateTable, he, lookupTable, List.find?_cons]
    · have hb : (e.1 == n) = false := by simp [he]
      simp only [updateTable, if_neg he]
      simp only [lookupTable, List.find?_cons, hb] at h ⊢
      exact ih h

theorem lookupTable_updateTable_ne (db : List (String × Table)) (n m : String)
    (t2 : Table) (h : n ≠ m) :
    lookupTable (updateTable db m t2) n = lookupTable db n := by
  induction db with
  | nil => rfl
  | cons e es ih =>
    by_cases he : e.1 = m
    · have h1 : (m == n) = false := by simp [Ne.symm h]
      have h2 : (e.1 == n) = false := by simp [he, Ne.symm h]
      simp only [updateTable, if_pos he, lookupTable, List.find?_cons, h1, h2]
    · simp only [updateTable, if_neg he]
      by_cases hen : e.1 = n
      · simp [lookupTable, List.find?_cons, hen]
      · have h2 : (e.1 == n) = false := by simp [hen]
        simp only [lookupTable, List.find?_cons, h2]
        exact ih

theorem updateTable_self_eq (db : List (String × Table)) (n : String) (t : Table)
    (h : lookupTable db n = some t) : updateTable db n t = db := by
  induction db with
  | nil => rfl
  | cons e es ih =>
    by_cases he : e.1 = n
    · have hb : (e.1 == n) = true := by simp [he]
      simp only [lookupTable, List.find?_cons, hb, Option.map_some'] at h
      simp only [updateTable, if_pos he]
      have : e = (n, t) := by
        cases e with
        | mk a b =>
          simp only at he
          simp only [Option.some.injEq] at h
          rw [he, h]
      rw [this]
    · have hb : (e.1 == n) = false := by simp [he]
      simp only [lookupTable, List.find?_cons, hb] at h
      simp only [updateTable, if_neg he]
      rw [ih h]

theorem lookupTable_logAdminAction_ne (db : List (String × Table)) (n : String)
    (adminUser actType dbFile tableName details : String)
    (h : n ≠ "admin_actions") :
    lookupTable (logAdminAction db adminUser actType dbFile tableName details) n =
      lookupTable db n := by
  unfold logAdminAction
  split
  · rfl
  · split
    · exact lookupTable_updateTable_ne db n "admin_actions" _ h
    · rfl

/- ### C6: update on a nonexistent id -/

/-- Claim C6 (amended): when the update form is nonempty, names only
existing columns, and the id matches no row of the target table, the
operation completes without error and reports success, and the target
table is unchanged — provided the target table is not the admin_actions
audit table itself; editing admin_actions appends an audit row to it even
though the UPDATE matched zero rows. -/
theorem c6_update_nonexistent_id (db : List (String × Table))
    (dbFile tableName adminUser : String) (recordId : Nat) (form : Fields)
    (t : Table)
    (ht : lookupTable db (cleanStr tableName) = some t)
    (hkey : cleanStr tableName ≠ "admin_actions")
    (hne : updatesOf form ≠ [])
    (hcols : (updatesOf form).all (fun kv => t.cols.contains kv.1) = true)
    (hnorow : ∀ r ∈ t.rows, r.1 ≠ recordId) :
    (edit_database_record db dbFile tableName adminUser recordId form).success = true ∧
    (edit_database_record db dbFile tableName adminUser recordId form).err = none ∧
    lookupTable (edit_database_record db dbFile tableName adminUser recordId form).db
      (cleanStr tableName) = some t := by
  have hrows : t.rows.map (fun r =>
      if r.1 = recordId then (r.1, applyUpdates r.2 (updatesOf form)) else r) = t.rows := by
    have hcg : ∀ r ∈ t.rows,
        (if r.1 = recordId then (r.1, applyUpdates r.2 (updatesOf form)) else r) = id r := by
      intro r hr
      rw [if_neg (hnorow r hr)]
      rfl
    rw [List.map_congr_left hcg, List.map_id]
  have hie : (updatesOf form).isEmpty = false := by
    cases hu : updatesOf form with
    | nil => exact absurd hu hne
    | cons a l => rfl
  simp only [edit_database_record, ht]
  simp only [hie, Bool.false_eq_true, if_false, hcols, if_true, hrows]
  refine ⟨trivial, trivial, ?_⟩
  rw [lookupTable_logAdminAction_ne _ _ _ _ _ _ _ hkey]
  have : (⟨t.cols, t.rows⟩ : Table) = t := rfl
  rw [this, updateTable_self_eq db (cleanStr tableName) t ht]
  exact ht

/-- Witness for C6: updating id 5 of a one-row qbank table (whose only
row has id 1) succeeds and leaves the table unchanged. -/
theorem c6_update_nonexistent_id_witness :
    (edit_database_record [("qbank", ⟨["id", "question"], [(1, [("question", "q1")])]⟩)]
      "demo_year.db" "qbank" "anonymous" 5 [("question", "new")]).success = true ∧
    (edit_database_record [("qbank", ⟨["id", "question"], [(1, [("question", "q1")])]⟩)]
      "demo_year.db" "qbank" "anonymous" 5 [("question", "new")]).err = none ∧
    lookupTable (edit_database_record
      [("qbank", ⟨["id", "question"], [(1, [("question", "q1")])]⟩)]
      "demo_year.db" "qbank" "anonymous" 5 [("question", "new")]).db
      (cleanStr "qbank") = some ⟨["id", "question"], [(1, [("question", "q1")])]⟩ :=
  c6_update_nonexistent_id
    [("qbank", ⟨["id", "question"], [(1, [("question", "q1")])]⟩)]
    "demo_year.db" "qbank" "anonymous" 5 [("question", "new")]
    ⟨["id", "question"], [(1, [("question", "q1")])]⟩
    (by decide) (by decide) (by decide) (by decide) (by decide)

/-- Counterexample to C6 as stated: updating a nonexistent id in the
admin_actions table of a database containing it reports success, yet the
table's contents are not identical afterwards — the log-and-continue
audit insert appended a row to the very table being edited. -/
theorem c6_counterexample :
    (edit_database_record [("admin_actions",
      ⟨["id", "admin_user_id", "action_type", "target_db", "target_table",
        "action_details", "timestamp"], []⟩)]
      "admin_data.db" "admin_actions" "anonymous" 1 [("action_type", "x")]).success
        = true ∧
    ((lookupTable (edit_database_record [("admin_actions",
      ⟨["id", "admin_user_id", "action_type", "target_db", "target_table",
        "action_details", "timestamp"], []⟩)]
      "admin_data.db" "admin_actions" "anonymous" 1 [("action_type", "x")]).db
      "admin_actions").map (fun tb => tb.rows.length)) = some 1 := by decide

/- ### C7: insert builds over exactly the non-blank fields -/

/-- Claim C7 (confirmed): the insert operation builds its column list over
exactly the supplied fields whose values are non-blank — every stored
field is non-blank and every non-control non-blank form field is stored
with its submitted value — and when the resulting field set is empty it
performs no insert and reports the fill-a-field validation error. -/
theorem c7_insert_nonblank (db : List (String × Table))
    (dbFile tableName adminUser : String) (form : Fields) (t : Table)
    (ht : lookupTable db (cleanStr tableName) = some t)
    (hkey : cleanStr tableName ≠ "admin_actions")
    (hcols : (insertColumns form).all (fun kv => t.cols.contains kv.1) = true) :
    ((insertColumns form).isEmpty = true →
      add_database_record db dbFile tableName adminUser form =
        ⟨db, false, some "Please fill at least one field"⟩) ∧
    ((insertColumns form).isEmpty = false →
      (add_database_record db dbFile tableName adminUser form).success = true ∧
      lookupTable (add_database_record db dbFile tableName adminUser form).db
        (cleanStr tableName) =
        some ⟨t.cols, t.rows ++ [(nextId t, insertColumns form)]⟩) ∧
    (∀ kv ∈ insertColumns form, pyBlank kv.2 = false) ∧
    (∀ kv ∈ form, kv.1 ≠ "csrf_token" → kv.1 ≠ "submit" → pyBlank kv.2 = false →
      (cleanStr kv.1, kv.2) ∈ insertColumns form) := by
  refine ⟨?_, ?_, ?_, ?_⟩
  · intro hie
    simp only [add_database_record, ht, hie, if_true]
  · intro hie
    simp only [add_database_record, ht, hie, Bool.false_eq_true, if_false,
      hcols, if_true]
    refine ⟨trivial, ?_⟩
    rw [lookupTable_logAdminAction_ne _ _ _ _ _ _ _ hkey]
    exact lookupTable_updateTable_self db (cleanStr tableName) t _ ht
  · intro kv hkv
    rcases List.mem_map.mp hkv with ⟨kv0, hkv0, hkveq⟩
    have hp := List.of_mem_filter hkv0
    simp only [Bool.and_eq_true, Bool.not_eq_true'] at hp
    rw [← hkveq]
    exact hp.2
  · intro kv hm h1 h2 h3
    apply List.mem_map.mpr
    refine ⟨kv, List.mem_filter.mpr ⟨hm, ?_⟩, rfl⟩
    simp only [Bool.and_eq_true, Bool.not_eq_true']
    refine ⟨⟨?_, ?_⟩, h3⟩
    · simp [h1]
    · simp [h2]

/-- Witness for C7: inserting a form with one non-blank and one blank
field stores exactly the non-blank one; the all-blank form is rejected
with the validation error. -/
theorem c7_insert_nonblank_witness :
    ((insertColumns [("question", "What is DNA"), ("chapter", "   ")]).isEmpty = true →
      add_database_record
        [("qbank", ⟨["id", "question", "chapter"], []⟩)]
        "demo_year.db" "qbank" "anonymous"
        [("question", "What is DNA"), ("chapter", "   ")] =
        ⟨[("qbank", ⟨["id", "question", "chapter"], []⟩)], false,
          some "Please fill at least one field"⟩) ∧
    ((insertColumns [("question", "What is DNA"), ("chapter", "   ")]).isEmpty = false →
      (add_database_record
        [("qbank", ⟨["id", "question", "chapter"], []⟩)]
        "demo_year.db" "qbank" "anonymous"
        [("question", "What is DNA"), ("chapter", "   ")]).success = true ∧
      lookupTable (add_database_record
        [("qbank", ⟨["id", "question", "chapter"], []⟩)]
        "demo_year.db" "qbank" "anonymous"
        [("question", "What is DNA"), ("chapter", "   ")]).db
        (cleanStr "qbank") =
        some ⟨["id", "question", "chapter"],
          [] ++ [(nextId ⟨["id", "question", "chapter"], []⟩,
            insertColumns [("question", "What is DNA"), ("chapter", "   ")])]⟩) ∧
    (∀ kv ∈ insertColumns [("question", "What is DNA"), ("chapter", "   ")],
      pyBlank kv.2 = false) ∧
    (∀ kv ∈ ([("question", "What is DNA"), ("chapter", "   ")] : Fields),
      kv.1 ≠ "csrf_token" → kv.1 ≠ "submit" → pyBlank kv.2 = false →
      (cleanStr kv.1, kv.2) ∈
        insertColumns [("question", "What is DNA"), ("chapter", "   ")]) :=
  c7_insert_nonblank [("qbank", ⟨["id", "question", "chapter"], []⟩)]
    "demo_year.db" "qbank" "anonymous"
    [("question", "What is DNA"), ("chapter", "   ")]
    ⟨["id", "question", "chapter"], []⟩
    (by decide) (by decide) (by decide)

/- ### C8: paginated listing -/

theorem mem_insertRowDesc {y r : QRow} {l : List QRow}
    (h : y ∈ insertRowDesc r l) : y = r ∨ y ∈ l := by
  induction l with
  | nil =>
    simp only [insertRowDesc, List.mem_singleton] at h
    exact Or.inl h
  | cons x xs ih =>
    unfold insertRowDesc at h
    split at h
    · rcases List.mem_cons.mp h with h | h
      · exact Or.inl h
      · exact Or.inr h
    · rcases List.mem_cons.mp h with h | h
      · exact Or.inr (h ▸ List.mem_cons_self x xs)
      · rcases ih h with h | h
        · exact Or.inl h
        · exact Or.inr (List.mem_cons_of_mem x h)

theorem sorted_insertRowDesc (r : QRow) (l : List QRow)
    (h : l.Sorted (fun a b => sortKey b ≤ sortKey a)) :
    (insertRowDesc r l).Sorted (fun a b => sortKey b ≤ sortKey a) := by
  induction l with
  | nil => simp [insertRowDesc]
  | cons x xs ih =>
    rw [List.sorted_cons] at h
    obtain ⟨hx, hxs⟩ := h
    unfold insertRowDesc
    split
    · rename_i hlt
      rw [List.sorted_cons]
      refine ⟨?_, ?_⟩
      · intro b hb
        rcases List.mem_cons.mp hb with rfl | hbxs
        · exact le_of_lt hlt
        · exact le_trans (hx b hbxs) (le_of_lt hlt)
      · rw [List.sorted_cons]
        exact ⟨hx, hxs⟩
    · rename_i hnlt
      rw [List.sorted_cons]
      refine ⟨?_, ih hxs⟩
      intro b hb
      rcases mem_insertRowDesc hb with rfl | hbxs
      · exact not_lt.mp hnlt
      · exact hx b hbxs

theorem sorted_orderByIdDesc (rows : List QRow) :
    (orderByIdDesc rows).Sorted (fun a b => sortKey b ≤ sortKey a) := by
  induction rows with
  | nil => simp [orderByIdDesc]
  | cons r rs ih => exact sorted_insertRowDesc r _ ih

theorem mem_of_mem_orderByIdDesc {y : QRow} {rows : List QRow}
    (h : y ∈ orderByIdDesc rows) : y ∈ rows := by
  induction rows with
  | nil => simp [orderByIdDesc] at h
  | cons r rs ih =>
    rcases mem_insertRowDesc h with rfl | h2
    · exact List.mem_cons_self _ _
    · exact List.mem_cons_of_mem _ (ih h2)

/-- Claim C8 (confirmed): for every 1-based page number the listing
returns exactly the slice of the table sorted by COALESCE(id, 0)
descending that skips the first (page-1)*25 rows, contains at most 25
rows, is itself in descending id order, draws only rows of the table, and
reports the table's full row count as the total. -/
theorem c8_pagination (rows : List QRow) (page : Nat) (_hp : 1 ≤ page) :
    (edit_database_table_page rows page).1 =
      ((orderByIdDesc rows).drop ((page - 1) * per_page)).take per_page ∧
    (edit_database_table_page rows page).1.length ≤ per_page ∧
    ((edit_database_table_page rows page).1).Sorted
      (fun a b => sortKey b ≤ sortKey a) ∧
    (∀ x ∈ (edit_database_table_page rows page).1, x ∈ rows) ∧
    (edit_database_table_page rows page).2 = rows.length := by
  have hsub : List.Sublist
      (((orderByIdDesc rows).drop ((page - 1) * per_page)).take per_page)
      (orderByIdDesc rows) :=
    (List.take_sublist _ _).trans (List.drop_sublist _ _)
  refine ⟨rfl, ?_, ?_, ?_, rfl⟩
  · exact List.length_take_le _ _
  · exact (sorted_orderByIdDesc rows).sublist hsub
  · intro x hx
    exact mem_of_mem_orderByIdDesc (hsub.subset hx)

/-- Witness for C8 on a three-row table (one NULL id) at page 1. -/
theorem c8_pagination_witness :
    (edit_database_table_page [⟨some 2, []⟩, ⟨none, []⟩, ⟨some 5, []⟩] 1).1 =
      ((orderByIdDesc [⟨some 2, []⟩, ⟨none, []⟩, ⟨some 5, []⟩]).drop
        ((1 - 1) * per_page)).take per_page ∧
    (edit_database_table_page [⟨some 2, []⟩, ⟨none, []⟩, ⟨some 5, []⟩] 1).1.length ≤
      per_page ∧
    ((edit_database_table_page [⟨some 2, []⟩, ⟨none, []⟩, ⟨some 5, []⟩] 1).1).Sorted
      (fun a b => sortKey b ≤ sortKey a) ∧
    (∀ x ∈ (edit_database_table_page [⟨some 2, []⟩, ⟨none, []⟩, ⟨some 5, []⟩] 1).1,
      x ∈ ([⟨some 2, []⟩, ⟨none, []⟩, ⟨some 5, []⟩] : List QRow)) ∧
    (edit_database_table_page [⟨some 2, []⟩, ⟨none, []⟩, ⟨some 5, []⟩] 1).2 =
      ([⟨some 2, []⟩, ⟨none, []⟩, ⟨some 5, []⟩] : List QRow).length :=
  c8_pagination [⟨some 2, []⟩, ⟨none, []⟩, ⟨some 5, []⟩] 1 (by decide)

/- ### C9: filename derivation vs discovery patterns -/

theorem globMatch_star_append (ps : List Char) (a b : List Char)
    (h : globMatch ps b = true) : globMatch ('*' :: ps) (a ++ b) = true := by
  induction a with
  | nil =>
    rw [List.nil_append]
    cases b with
    | nil => simp [globMatch, h]
    | cons c cs =>
      simp only [globMatch, beq_self_eq_true, if_true, Bool.or_eq_true]
      exact Or.inl h
  | cons x xs ih =>
    rw [List.cons_append]
    simp only [globMatch, beq_self_eq_true, if_true, Bool.or_eq_true]
    exact Or.inr ih

theorem fnmatch_year_suffix (dbName : String) :
    fnmatch "*year*.db" (dbName ++ "_year.db") = true := by
  unfold fnmatch
  rw [String.data_append]
  rw [show ("*year*.db".data) = '*' :: "year*.db".data from rfl]
  rw [show ("_year.db".data) = '_' :: "year.db".data from rfl]
  rw [List.append_cons]
  exact globMatch_star_append _ _ _ (by simp [globMatch])

theorem fnmatch_mcq_suffix (dbName : String) :
    fnmatch "*mcq*.db" (dbName ++ "_mcq.db") = true := by
  unfold fnmatch
  rw [String.data_append]
  rw [show ("*mcq*.db".data) = '*' :: "mcq*.db".data from rfl]
  rw [show ("_mcq.db".data) = '_' :: "mcq.db".data from rfl]
  rw [List.append_cons]
  exact globMatch_star_append _ _ _ (by simp [globMatch])

theorem globMatch_cons_lit (p c : Char) (ps cs : List Char)
    (hne : (p == '*') = false) (heq : (p == c) = true) :
    globMatch (p :: ps) (c :: cs) = globMatch ps cs := by
  simp [globMatch, hne, heq]

theorem fnmatch_admin_marker (dbName : String) :
    fnmatch "admin*.db" ("admin_" ++ dbName ++ ".db") = true := by
  unfold fnmatch
  rw [String.data_append, String.data_append]
  rw [show ("admin*.db".data) = ['a', 'd', 'm', 'i', 'n', '*', '.', 'd', 'b'] from rfl]
  rw [show ("admin_".data) = ['a', 'd', 'm', 'i', 'n', '_'] from rfl]
  rw [show (".db".data) = ['.', 'd', 'b'] from rfl]
  simp only [List.cons_append, List.nil_append]
  rw [globMatch_cons_lit 'a' 'a' _ _ (by decide) (by decide)]
  rw [globMatch_cons_lit 'd' 'd' _ _ (by decide) (by decide)]
  rw [globMatch_cons_lit 'm' 'm' _ _ (by decide) (by decide)]
  rw [globMatch_cons_lit 'i' 'i' _ _ (by decide) (by decide)]
  rw [globMatch_cons_lit 'n' 'n' _ _ (by decide) (by decide)]
  rw [show ('_' :: (dbName.data ++ ['.', 'd', 'b'])) =
    (('_' :: dbName.data) ++ ['.', 'd', 'b']) from rfl]
  exact globMatch_star_append _ _ _ (by simp [globMatch])

/-- Claim C9 (amended): the create operation derives filenames matching
the category's discovery pattern for the qbank, mcq and admin categories
(suffix _year.db, suffix _mcq.db, and the admin_ marker respectively),
and the users category always maps to the one fixed centralized filename,
which matches its exact pattern; the test category, however, falls into
the default branch and appends no marker, so its derived filename matches
the *test*.db pattern only when the base name itself contains test. -/
theorem c9_filename_convention (dbName : String) :
    (db_pattern "qbank" = some "*year*.db" ∧
      fnmatch "*year*.db" (derive_db_filename "qbank" dbName) = true) ∧
    (db_pattern "mcq" = some "*mcq*.db" ∧
      fnmatch "*mcq*.db" (derive_db_filename "mcq" dbName) = true) ∧
    (db_pattern "admin" = some "admin*.db" ∧
      fnmatch "admin*.db" (derive_db_filename "admin" dbName) = true) ∧
    (db_pattern "users" = some "admin_users.db" ∧
      derive_db_filename "users" dbName = centralizedName ∧
      fnmatch "admin_users.db" (derive_db_filename "users" dbName) = true) := by
  refine ⟨⟨rfl, ?_⟩, ⟨rfl, ?_⟩, ⟨rfl, ?_⟩, ⟨rfl, rfl, ?_⟩⟩
  · exact fnmatch_year_suffix dbName
  · exact fnmatch_mcq_suffix dbName
  · exact fnmatch_admin_marker dbName
  · simp [derive_db_filename, fnmatch, globMatch, centralizedName]

/-- Counterexample to C9 as stated: creating a test-category database
named demo derives the filename demo.db, which does not match the test
category's *test*.db discovery pattern. -/
theorem c9_counterexample :
    db_pattern "test" = some "*test*.db" ∧
    derive_db_filename "test" "demo" = "demo.db" ∧
    fnmatch "*test*.db" (derive_db_filename "test" "demo") = false := by
  refine ⟨rfl, rfl, ?_⟩
  simp [derive_db_filename, fnmatch, globMatch]

/- ### C10: fresh handler, discovery attribute, backup and migration -/

/-- Claim C10 (amended): on a freshly constructed handler the
discovered-databases attribute does not exist (the startup auto-discovery
assignment is dead code after a return inside get_admin_schema), and
backup_all_databases invoked first always returns a failure result; the
migration, however, fails on a fresh handler only when the centralized
user file already exists in storage — when it is absent, the
create-if-missing step assigns the attribute as a side effect and the
migration proceeds. -/
theorem c10_fresh_handler (p : String) (fs : FS10)
    (hc : (fs.map Prod.fst).contains (p ++ "/" ++ centralizedName) = true) :
    (freshHandler p).discovered = none ∧
    (backup_all_databases (freshHandler p)).1 = false ∧
    (migrate_users_to_centralized_db (freshHandler p) fs).ok = false := by
  refine ⟨rfl, rfl, ?_⟩
  simp only [migrate_users_to_centralized_db, freshHandler, hc, if_true]

/-- Witness for C10: a fresh handler over a storage that already holds
the centralized file neither backs up nor migrates. -/
theorem c10_fresh_handler_witness :
    (freshHandler "/data").discovered = none ∧
    (backup_all_databases (freshHandler "/data")).1 = false ∧
    (migrate_users_to_centralized_db (freshHandler "/data")
      [("/data/admin_users.db", emptyCentralDB)]).ok = false :=
  c10_fresh_handler "/data" [("/data/admin_users.db", emptyCentralDB)] (by decide)

/-- Counterexample to C10 as stated: when the centralized file is absent,
migration on a fresh handler does not fail — add_new_database creates the
file and assigns discovered_databases on the way, and the migration then
reports success. -/
theorem c10_counterexample :
    (migrate_users_to_centralized_db (freshHandler "/data") []).ok = true := by
  rfl

end DynDB
